import Mathlib

/-!
Shallow embedding of `src/magic_pdf/data/io/qiniu_client.py` (class
`QiniuOSSClient`), the Qiniu object-storage client of MonkeyOCR.

External collaborators (the Qiniu SDK transport calls `put_file`, `put_data`,
`BucketManager.stat/delete/copy/move/list`, the `urllib` download, and the
filesystem) are modelled as explicit inputs: each operation takes the
transport response (`ResponseInfo`, plus the vendor `ret` payload) or a
filesystem oracle as a parameter, and we prove properties for all such
responses.  The result dictionaries returned by the Python methods are
modelled as an `OperationResult` structure whose `Option` fields record
which dictionary keys are populated (`none` = key absent from the dict).
-/

namespace QiniuClient

/-- `upload_policy` section of the YAML configuration
(`config.get('upload_policy', {})`): `expires`, `fsizeLimit`, `mime_limit`
are each optional (`none` = key absent). -/
structure UploadPolicyCfg where
  expires : Option Nat
  fsizeLimit : Option Int
  mime_limit : Option String
  deriving Repr, DecidableEq

/-- `download` section of the YAML configuration
(`config.get('download', {})`).  `https` models the truthiness of
`download.get('https', False)` (absent = `false`). -/
structure DownloadCfg where
  expires : Option Nat
  https : Bool
  deriving Repr, DecidableEq

/-- The client state established by `QiniuOSSClient._setup_client`:
bucket name, CDN domain (`config.get('domain', '')`, empty string = not
configured) and the policy sections of the configuration.  The Qiniu SDK
signing primitive `Auth.private_download_url` is external to the
repository, so it enters the model as the uninterpreted function field
`sign` (base URL and expiry in, signed URL out). -/
structure QiniuOSSClient where
  bucket_name : String
  domain : String
  upload_policy : UploadPolicyCfg
  download : DownloadCfg
  sign : String → Nat → String

/-- Python exceptions raised by the client itself (not caught transport
errors): `FileNotFoundError` from `upload_file` and `ValueError` from the
URL builders. -/
inductive PyError where
  | fileNotFound (msg : String)
  | valueError (msg : String)
  deriving Repr, DecidableEq

/-- `str(e)` on a `PyError`: the message. -/
def PyError.message : PyError → String
  | .fileNotFound m => m
  | .valueError m => m

/-- The `info` object of a Qiniu SDK response: HTTP status code and error
body (`info.status_code`, `info.text_body`). -/
structure ResponseInfo where
  status_code : Int
  text_body : String
  deriving Repr, DecidableEq

/-- The `ret` payload of `put_file` / `put_data`; the code reads
`ret.get('hash')`, which may be absent. -/
structure PutRet where
  hash : Option String
  deriving Repr, DecidableEq

/-- The `ret` payload of `BucketManager.stat`: the code reads
`ret['fsize']`, `ret['hash']`, `ret['putTime']`, `ret.get('mimeType', '')`. -/
structure StatRet where
  fsize : Nat
  hash : String
  putTime : Nat
  mimeType : Option String
  deriving Repr, DecidableEq

/-- One element of `ret['items']` in a `BucketManager.list` response. -/
structure ListItem where
  key : String
  fsize : Nat
  hash : String
  putTime : Nat
  mimeType : Option String
  deriving Repr, DecidableEq

/-- The `ret` payload of `BucketManager.list`: the code reads
`ret.get('items', [])` and `ret.get('marker', '')`. -/
structure ListRet where
  items : List ListItem
  marker : Option String
  deriving Repr, DecidableEq

/-- A normalized file entry built by `list_files` (and the field set of
`get_file_info`): key, size, hash, put time, mime type and the optional
public URL (`None` when no domain is configured). -/
structure FileRecord where
  key : String
  size : Nat
  hash : String
  put_time : Nat
  mime_type : String
  url : Option String
  deriving Repr, DecidableEq

/-- The result dictionary each gateway method returns.  Every `Option`
field models one dictionary key; `none` means the key is absent from the
dict.  `url` is `Option (Option String)` because the code writes
`'url': ... if self.domain else None`: the key is present with a possibly
`None` value.  Likewise `hash` on uploads stores `ret.get('hash')`. -/
structure OperationResult where
  success : Bool
  key : Option String := none
  hash : Option (Option String) := none
  size : Option Nat := none
  url : Option (Option String) := none
  local_path : Option String := none
  error : Option String := none
  status_code : Option Int := none
  src_key : Option String := none
  dest_key : Option String := none
  files : Option (List FileRecord) := none
  is_end : Option Bool := none
  marker : Option String := none
  total : Option Nat := none
  put_time : Option Nat := none
  mime_type : Option String := none
  deriving Repr, DecidableEq

/-- The upload policy document built by
`QiniuOSSClient.generate_upload_token` (lines 81-94) before it is handed
to the external SDK signer: scope string, absolute deadline and the two
optional limit entries (`none` = key omitted from the policy dict). -/
structure UploadPolicy where
  scope : String
  deadline : Nat
  fsizeLimit : Option Int
  mimeLimit : Option String
  deriving Repr, DecidableEq

/-- Python truthiness of an optional string configuration value:
absent or empty means falsy. -/
def strTruthy : Option String → Bool
  | none => false
  | some s => !(s == "")

/-- `QiniuOSSClient.generate_upload_token`: the policy document the method
constructs.  `now` models `int(time.time())`.  `expires` defaults to
`config.get('upload_policy', {}).get('expires', 3600)`; the scope is the
bucket name, or `bucket:key` when a key is given; `fsizeLimit` is attached
only when `upload_policy.get('fsizeLimit', 0) > 0`, and `mimeLimit` only
when `upload_policy.get('mime_limit')` is truthy.  The actual token string
is the external SDK signature of this document. -/
def generate_upload_token (c : QiniuOSSClient) (now : Nat)
    (key : Option String) (expires : Option Nat) : UploadPolicy :=
  let e := expires.getD (c.upload_policy.expires.getD 3600)
  let scope :=
    match key with
    | none => c.bucket_name
    | some k => c.bucket_name ++ ":" ++ k
  let fsl :=
    if c.upload_policy.fsizeLimit.getD 0 > 0 then c.upload_policy.fsizeLimit
    else none
  let ml :=
    if strTruthy c.upload_policy.mime_limit then c.upload_policy.mime_limit
    else none
  { scope := scope, deadline := now + e, fsizeLimit := fsl, mimeLimit := ml }

/-- `QiniuOSSClient.get_public_url` (lines 215-229): raises `ValueError`
when no domain is configured, otherwise returns
`protocol://domain/key` with `protocol` chosen by the
`download.https` configuration flag.  No signing. -/
def get_public_url (c : QiniuOSSClient) (remote_key : String) :
    Except PyError String :=
  if c.domain = "" then
    .error (.valueError "Domain not configured for public URL generation")
  else
    let protocol := if c.download.https then "https" else "http"
    .ok (protocol ++ "://" ++ c.domain ++ "/" ++ remote_key)

/-- `QiniuOSSClient.get_private_url` (lines 231-249): raises `ValueError`
when no domain is configured; `expires` defaults to
`download.get('expires', 3600)`; builds the public URL and signs it with
the external SDK signer. -/
def get_private_url (c : QiniuOSSClient) (remote_key : String)
    (expires : Option Nat) : Except PyError String :=
  if c.domain = "" then
    .error (.valueError "Domain not configured for private URL generation")
  else
    let e := expires.getD (c.download.expires.getD 3600)
    (get_public_url c remote_key).map (fun base => c.sign base e)

/-- `QiniuOSSClient.get_download_url` (lines 251-264): the code always
returns the private signed URL. -/
def get_download_url (c : QiniuOSSClient) (remote_key : String)
    (expires : Option Nat) : Except PyError String :=
  get_private_url c remote_key expires

/-- The `'url': self.get_public_url(k) if self.domain else None` idiom used
by the success branches of the upload / stat / list methods. -/
def publicUrlOpt (c : QiniuOSSClient) (k : String) : Option String :=
  if c.domain = "" then none
  else
    match get_public_url c k with
    | .ok u => some u
    | .error _ => none

/-- UTF-8 encoding of one character, from its code point (the conversion
`data.encode('utf-8')` performs per character). -/
def charUtf8 (c : Char) : List Nat :=
  let n := c.toNat
  if n < 0x80 then [n]
  else if n < 0x800 then
    [0xC0 + n / 64, 0x80 + n % 64]
  else if n < 0x10000 then
    [0xE0 + n / 4096, 0x80 + (n / 64) % 64, 0x80 + n % 64]
  else
    [0xF0 + n / 262144, 0x80 + (n / 4096) % 64, 0x80 + (n / 64) % 64,
      0x80 + n % 64]

/-- `s.encode('utf-8')` as a list of byte values. -/
def utf8Encode (s : String) : List Nat :=
  s.data.foldr (fun c acc => charUtf8 c ++ acc) []

/-- The `data` argument of `upload_data`, typed `Union[str, bytes]` in the
source: either a Python `str` or a `bytes` buffer (byte values). -/
inductive UploadData where
  | str (s : String)
  | bytes (bs : List Nat)
  deriving Repr, DecidableEq

/-- The byte buffer actually transmitted by `upload_data` after the
`isinstance(data, str)` conversion (line 153-154): a `str` is encoded as
UTF-8, a `bytes` value passes through unchanged. -/
def dataBytes : UploadData → List Nat
  | .str s => utf8Encode s
  | .bytes bs => bs

/-- Side effects of `upload_file` that the claims observe: token issuance
and the network upload call. -/
inductive Effect where
  | issueToken (key : Option String)
  | putFile (key : String)
  deriving Repr, DecidableEq

/-- `QiniuOSSClient.upload_file` (lines 98-136).  `fs` is the filesystem
oracle: `fs p = some n` means `os.path.exists(p)` and
`os.path.getsize(p) = n`; `ret`/`info` are the external `put_file`
response.  Returns the raised exception or the result dict, paired with
the trace of token/network effects in order.  A missing local file raises
`FileNotFoundError` before any token is issued (empty trace). -/
def upload_file (c : QiniuOSSClient) (fs : String → Option Nat) (now : Nat)
    (ret : PutRet) (info : ResponseInfo)
    (local_file_path remote_key : String) :
    Except PyError OperationResult × List Effect :=
  match fs local_file_path with
  | none =>
    (.error (.fileNotFound ("Local file not found: " ++ local_file_path)), [])
  | some fsize =>
    let _token := generate_upload_token c now (some remote_key) none
    let result : OperationResult :=
      if info.status_code = 200 then
        { success := true, key := some remote_key, hash := some ret.hash,
          size := some fsize, url := some (publicUrlOpt c remote_key) }
      else
        { success := false, error := some info.text_body,
          status_code := some info.status_code }
    (.ok result, [.issueToken (some remote_key), .putFile remote_key])

/-- `QiniuOSSClient.upload_data` (lines 138-174): issues a token scoped to
`remote_key`, converts a `str` input to UTF-8 bytes, transmits via the
external `put_data`, and normalizes the response: on status 200 the size
reported is the length of the in-memory buffer. -/
def upload_data (c : QiniuOSSClient) (now : Nat)
    (ret : PutRet) (info : ResponseInfo)
    (data : UploadData) (remote_key : String) : OperationResult :=
  let _token := generate_upload_token c now (some remote_key) none
  let bytes := dataBytes data
  if info.status_code = 200 then
    { success := true, key := some remote_key, hash := some ret.hash,
      size := some bytes.length, url := some (publicUrlOpt c remote_key) }
  else
    { success := false, error := some info.text_body,
      status_code := some info.status_code }

/-- `QiniuOSSClient.download_file` (lines 176-213).  The whole body is one
`try` block; `transfer` models the external steps after URL resolution
(`makedirs`, `urlretrieve`, `getsize`): `.ok n` is a completed download of
`n` bytes, `.error msg` an exception with message `msg`.  Every exception
— including the `ValueError` from URL resolution when no domain is
configured — is converted to `{success: false, error: str(e)}`; the
function never raises (its type is `OperationResult`, not `Except`). -/
def download_file (c : QiniuOSSClient) (transfer : Except String Nat)
    (remote_key local_file_path : String) : OperationResult :=
  match get_download_url c remote_key none with
  | .error e => { success := false, error := some e.message }
  | .ok _url =>
    match transfer with
    | .error msg => { success := false, error := some msg }
    | .ok fsize =>
      { success := true, key := some remote_key,
        local_path := some local_file_path, size := some fsize }

/-- `QiniuOSSClient.delete_file` (lines 266-290): normalizes the
`BucketManager.delete` response. -/
def delete_file (c : QiniuOSSClient) (info : ResponseInfo)
    (remote_key : String) : OperationResult :=
  if info.status_code = 200 then
    { success := true, key := some remote_key }
  else
    { success := false, error := some info.text_body,
      status_code := some info.status_code }

/-- `QiniuOSSClient.list_files` (lines 292-333): normalizes one page of
the `BucketManager.list` response (`ret`, `eof`, `info`).  On status 200
each item becomes a `FileRecord`, and `total` is set to `len(files)`, the
length of this single page. -/
def list_files (c : QiniuOSSClient) (ret : ListRet) (eof : Bool)
    (info : ResponseInfo) : OperationResult :=
  if info.status_code = 200 then
    let files := ret.items.map (fun item =>
      { key := item.key, size := item.fsize, hash := item.hash,
        put_time := item.putTime, mime_type := item.mimeType.getD "",
        url := publicUrlOpt c item.key : FileRecord })
    { success := true, files := some files, is_end := some eof,
      marker := some (ret.marker.getD ""), total := some files.length }
  else
    { success := false, error := some info.text_body,
      status_code := some info.status_code }

/-- `QiniuOSSClient.file_exists` (lines 335-346): returns
`info.status_code == 200` for the `BucketManager.stat` response. -/
def file_exists (c : QiniuOSSClient) (remote_key : String)
    (info : ResponseInfo) : Bool :=
  info.status_code == 200

/-- `QiniuOSSClient.get_file_info` (lines 348-375): normalizes the
`BucketManager.stat` response into the full `FileRecord` field set. -/
def get_file_info (c : QiniuOSSClient) (ret : StatRet) (info : ResponseInfo)
    (remote_key : String) : OperationResult :=
  if info.status_code = 200 then
    { success := true, key := some remote_key, size := some ret.fsize,
      hash := some (some ret.hash), put_time := some ret.putTime,
      mime_type := some (ret.mimeType.getD ""),
      url := some (publicUrlOpt c remote_key) }
  else
    { success := false, error := some info.text_body,
      status_code := some info.status_code }

/-- `QiniuOSSClient.copy_file` (lines 377-405): normalizes the
`BucketManager.copy` response (same bucket on both sides). -/
def copy_file (c : QiniuOSSClient) (info : ResponseInfo)
    (src_key dest_key : String) : OperationResult :=
  if info.status_code = 200 then
    { success := true, src_key := some src_key, dest_key := some dest_key }
  else
    { success := false, error := some info.text_body,
      status_code := some info.status_code }

/-- `QiniuOSSClient.move_file` (lines 407-435): normalizes the
`BucketManager.move` response. -/
def move_file (c : QiniuOSSClient) (info : ResponseInfo)
    (src_key dest_key : String) : OperationResult :=
  if info.status_code = 200 then
    { success := true, src_key := some src_key, dest_key := some dest_key }
  else
    { success := false, error := some info.text_body,
      status_code := some info.status_code }

/-- The mutual-exclusion shape of `OperationResult`: on success neither
`error` nor `status_code` is populated; on failure `error` is populated
and no success-branch field is. -/
def exclusiveBranches (r : OperationResult) : Bool :=
  if r.success then
    r.error.isNone && r.status_code.isNone
  else
    r.key.isNone && r.hash.isNone && r.size.isNone && r.url.isNone &&
    r.local_path.isNone && r.src_key.isNone && r.dest_key.isNone &&
    r.files.isNone && r.is_end.isNone && r.marker.isNone &&
    r.total.isNone && r.put_time.isNone && r.mime_type.isNone &&
    r.error.isSome

/-- A concrete client configuration with a CDN domain, https downloads and
both upload limits configured, used to instantiate the theorems. -/
def cdnClient : QiniuOSSClient :=
  { bucket_name := "bucket"
    domain := "cdn.example.com"
    upload_policy :=
      { expires := some 7200, fsizeLimit := some 1048576,
        mime_limit := some "image/png" }
    download := { expires := some 600, https := true }
    sign := fun base e => base ++ "?e=" ++ toString e }

/-- A concrete client configuration with no CDN domain configured. -/
def noDomainClient : QiniuOSSClient :=
  { bucket_name := "bucket"
    domain := ""
    upload_policy := { expires := none, fsizeLimit := none, mime_limit := none }
    download := { expires := none, https := false }
    sign := fun base _ => base }

end QiniuClient

namespace QiniuClient

/-- C1: every gateway operation (`upload_file`, `upload_data`,
`download_file`, `delete_file`, `list_files`, `get_file_info`,
`copy_file`, `move_file`), for every transport status code and every
response payload, returns an `OperationResult` populating exactly one
branch: on success neither `error` nor `status_code` is set, and on
failure only `error` (and `status_code` where applicable) is set and no
success-branch field is. -/
theorem c1_operation_result_exclusive_branches
    (c : QiniuOSSClient) (fs : String → Option Nat) (now : Nat)
    (pret : PutRet) (sret : StatRet) (lret : ListRet) (eof : Bool)
    (info : ResponseInfo) (transfer : Except String Nat)
    (lp rk sk dk : String) (d : UploadData) :
    (upload_file c fs now pret info lp rk).1.toOption.all exclusiveBranches
      = true ∧
    exclusiveBranches (upload_data c now pret info d rk) = true ∧
    exclusiveBranches (download_file c transfer rk lp) = true ∧
    exclusiveBranches (delete_file c info rk) = true ∧
    exclusiveBranches (list_files c lret eof info) = true ∧
    exclusiveBranches (get_file_info c sret info rk) = true ∧
    exclusiveBranches (copy_file c info sk dk) = true ∧
    exclusiveBranches (move_file c info sk dk) = true := by
  refine ⟨?_, ?_, ?_, ?_, ?_, ?_, ?_, ?_⟩
  · cases h : fs lp with
    | none => simp [upload_file, h, Except.toOption, Option.all]
    | some n =>
      simp only [upload_file, h]
      split <;> simp [Except.toOption, Option.all, exclusiveBranches]
  · unfold upload_data exclusiveBranches
    split <;> simp
  · unfold download_file
    cases h : get_download_url c rk none with
    | error e => simp [h, exclusiveBranches]
    | ok u => cases transfer <;> simp [h, exclusiveBranches]
  · unfold delete_file exclusiveBranches
    split <;> simp
  · unfold list_files exclusiveBranches
    split <;> simp
  · unfold get_file_info exclusiveBranches
    split <;> simp
  · unfold copy_file exclusiveBranches
    split <;> simp
  · unfold move_file exclusiveBranches
    split <;> simp

/-- C2: the upload policy built by `generate_upload_token` has deadline
`now + ttl` with `ttl` defaulting to the configured `upload_policy.expires`
(else 3600); its scope is the bucket name when no key is given and
`bucket:key` otherwise; a `fsizeLimit` entry appears exactly when the
configured limit is strictly positive (and then carries the configured
value, never zero), and a `mimeLimit` entry exactly when a truthy
`mime_limit` is configured. -/
theorem c2_upload_token_policy (c : QiniuOSSClient) (now : Nat)
    (key : Option String) (ttl : Option Nat) :
    (generate_upload_token c now key ttl).deadline
        = now + ttl.getD (c.upload_policy.expires.getD 3600) ∧
    (generate_upload_token c now none ttl).scope = c.bucket_name ∧
    (∀ k, (generate_upload_token c now (some k) ttl).scope
        = c.bucket_name ++ ":" ++ k) ∧
    ((generate_upload_token c now key ttl).fsizeLimit.isSome = true
        ↔ 0 < c.upload_policy.fsizeLimit.getD 0) ∧
    (∀ v, (generate_upload_token c now key ttl).fsizeLimit = some v →
        0 < v ∧ c.upload_policy.fsizeLimit = some v) ∧
    ((generate_upload_token c now key ttl).mimeLimit.isSome = true
        ↔ strTruthy c.upload_policy.mime_limit = true) ∧
    (∀ m, (generate_upload_token c now key ttl).mimeLimit = some m →
        c.upload_policy.mime_limit = some m) := by
  refine ⟨rfl, rfl, fun k => rfl, ?_, ?_, ?_, ?_⟩
  · cases hx : c.upload_policy.fsizeLimit with
    | none => simp [generate_upload_token, hx]
    | some v =>
      by_cases hv : (0 : Int) < v
      · simp [generate_upload_token, hx, hv]
      · simp [generate_upload_token, hx, hv]
  · intro v hv
    simp only [generate_upload_token] at hv
    split at hv
    · next h =>
      refine ⟨?_, hv⟩
      rw [hv] at h
      simpa using h
    · simp at hv
  · cases hx : c.upload_policy.mime_limit with
    | none => simp [generate_upload_token, hx, strTruthy]
    | some m =>
      by_cases hm : m = ""
      · simp [generate_upload_token, hx, strTruthy, hm]
      · simp [generate_upload_token, hx, strTruthy, hm]
  · intro m hm
    simp only [generate_upload_token] at hm
    split at hm
    · exact hm
    · simp at hm

/-- C3: `get_download_url` returns exactly the string `get_private_url`
returns, for every key and optional ttl and every client configuration —
it never branches on bucket access control. -/
theorem c3_download_url_is_private_url (c : QiniuOSSClient)
    (remote_key : String) (expires : Option Nat) :
    get_download_url c remote_key expires
      = get_private_url c remote_key expires := rfl

/-- C4: `get_public_url` raises `ValueError` exactly when no CDN domain is
configured; otherwise it returns `protocol://domain/key` with protocol
chosen by the `download.https` flag, unsigned. -/
theorem c4_public_url (c : QiniuOSSClient) (k : String) :
    (c.domain = "" → get_public_url c k
      = .error (.valueError "Domain not configured for public URL generation")) ∧
    (c.domain ≠ "" → get_public_url c k
      = .ok ((if c.download.https then "https" else "http")
          ++ "://" ++ c.domain ++ "/" ++ k)) := by
  constructor
  · intro h
    simp [get_public_url, h]
  · intro h
    simp [get_public_url, h]

/-- C4 witness: instantiation at a domainless client (error) and at the
CDN client over https (plain URL). -/
theorem c4_public_url_witness :
    noDomainClient.domain = "" ∧
    get_public_url noDomainClient "a.txt"
      = .error (.valueError "Domain not configured for public URL generation") ∧
    cdnClient.domain ≠ "" ∧
    get_public_url cdnClient "test/a.txt"
      = .ok "https://cdn.example.com/test/a.txt" := by
  refine ⟨rfl, (c4_public_url noDomainClient "a.txt").1 rfl, by decide, ?_⟩
  have h := (c4_public_url cdnClient "test/a.txt").2 (by decide)
  exact h.trans rfl

/-- C5: when the local path does not exist, `upload_file` raises
`FileNotFoundError` and its effect trace is empty: no token is issued and
no network call is made. -/
theorem c5_upload_missing_file (c : QiniuOSSClient)
    (fs : String → Option Nat) (now : Nat) (pret : PutRet)
    (info : ResponseInfo) (lp rk : String) (h : fs lp = none) :
    upload_file c fs now pret info lp rk
      = (.error (.fileNotFound ("Local file not found: " ++ lp)), []) := by
  simp [upload_file, h]

/-- C5 witness: a filesystem with no files, a concrete path. -/
theorem c5_upload_missing_file_witness :
    (fun _ : String => (none : Option Nat)) "missing.pdf" = none ∧
    upload_file cdnClient (fun _ => none) 0 ⟨none⟩ ⟨200, ""⟩
        "missing.pdf" "k"
      = (.error (.fileNotFound ("Local file not found: " ++ "missing.pdf")), []) :=
  ⟨rfl, c5_upload_missing_file cdnClient (fun _ => none) 0 ⟨none⟩ ⟨200, ""⟩
    "missing.pdf" "k" rfl⟩

/-- C2 witness: concrete policies for both demo clients, with and without
a key, with configured and default expiries and limits. -/
theorem c2_upload_token_policy_witness :
    (generate_upload_token cdnClient 1000 (some "k") none).deadline = 8200 ∧
    (generate_upload_token cdnClient 1000 (some "k") none).scope = "bucket:k" ∧
    (generate_upload_token cdnClient 1000 (some "k") none).fsizeLimit
      = some 1048576 ∧
    (generate_upload_token cdnClient 1000 (some "k") none).mimeLimit
      = some "image/png" ∧
    (generate_upload_token noDomainClient 1000 none none).deadline = 4600 ∧
    (generate_upload_token noDomainClient 1000 none none).scope = "bucket" ∧
    (generate_upload_token noDomainClient 1000 none none).fsizeLimit = none ∧
    (generate_upload_token noDomainClient 1000 none none).mimeLimit = none := by
  have h1 := c2_upload_token_policy cdnClient 1000 (some "k") none
  have h2 := c2_upload_token_policy noDomainClient 1000 none none
  exact ⟨h1.1.trans rfl, (h1.2.2.1 "k").trans rfl, rfl, rfl,
    h2.1.trans rfl, h2.2.1, rfl, rfl⟩

/-- C6: `download_file` never raises — its value is always an
`OperationResult`.  A missing-domain `ValueError` during URL resolution
and any transfer exception are both converted to
`{success: false, error: message}`, and every failure result carries an
error message. -/
theorem c6_download_converts_exceptions (c : QiniuOSSClient)
    (transfer : Except String Nat) (rk lp : String) :
    (c.domain = "" → download_file c transfer rk lp
      = { success := false,
          error := some "Domain not configured for private URL generation" }) ∧
    (∀ msg, c.domain ≠ "" → transfer = .error msg →
      download_file c transfer rk lp
        = { success := false, error := some msg }) ∧
    ((download_file c transfer rk lp).success = false →
      (download_file c transfer rk lp).error.isSome = true) := by
  refine ⟨?_, ?_, ?_⟩
  · intro h
    simp [download_file, get_download_url, get_private_url, h,
      PyError.message]
  · intro msg h ht
    simp [download_file, get_download_url, get_private_url, get_public_url,
      h, ht, PyError.message, Except.map]
  · cases hg : get_download_url c rk none with
    | error e => simp [download_file, hg]
    | ok u => cases transfer <;> simp [download_file, hg]

/-- C6 witness: the domainless client converts the `ValueError` from URL
resolution, and the CDN client converts a transfer exception. -/
theorem c6_download_converts_exceptions_witness :
    noDomainClient.domain = "" ∧
    download_file noDomainClient (.ok 5) "k" "out/f.bin"
      = { success := false,
          error := some "Domain not configured for private URL generation" } ∧
    cdnClient.domain ≠ "" ∧
    download_file cdnClient (.error "boom") "k" "out/f.bin"
      = { success := false, error := some "boom" } :=
  ⟨rfl,
    (c6_download_converts_exceptions noDomainClient (.ok 5) "k" "out/f.bin").1
      rfl,
    by decide,
    (c6_download_converts_exceptions cdnClient (.error "boom") "k"
      "out/f.bin").2.1 "boom" (by decide) rfl⟩

/-- C7: `file_exists` is true exactly when the stat response has status
200; in particular both a 404 and a 500 yield `false`, so the result does
not distinguish not-found from other failures. -/
theorem c7_file_exists_iff_status_200 (c : QiniuOSSClient) (k : String)
    (info : ResponseInfo) (body : String) :
    (file_exists c k info = true ↔ info.status_code = 200) ∧
    file_exists c k { status_code := 404, text_body := body } = false ∧
    file_exists c k { status_code := 500, text_body := body } = false := by
  refine ⟨?_, rfl, rfl⟩
  simp [file_exists]

/-- C8: on a status-200 transport outcome, `upload_data` reports
`size` equal to the transmitted buffer length and `key` equal to the
requested remote key; concretely, uploading the bytes of `"hello"` to
`test/a.txt` on the https CDN client yields
`{success: true, key: "test/a.txt", size: 5,
url: "https://cdn.example.com/test/a.txt"}`. -/
theorem c8_upload_data_success (c : QiniuOSSClient) (now : Nat)
    (pret : PutRet) (info : ResponseInfo) (d : UploadData) (rk : String)
    (h : info.status_code = 200) :
    (upload_data c now pret info d rk).size = some (dataBytes d).length ∧
    (upload_data c now pret info d rk).key = some rk ∧
    upload_data cdnClient 0 ⟨none⟩ ⟨200, ""⟩
        (.bytes [104, 101, 108, 108, 111]) "test/a.txt"
      = { success := true, key := some "test/a.txt", hash := some none,
          size := some 5,
          url := some (some "https://cdn.example.com/test/a.txt") } := by
  refine ⟨?_, ?_, rfl⟩
  · simp [upload_data, h]
  · simp [upload_data, h]

/-- C8 witness: a concrete 200 response. -/
theorem c8_upload_data_success_witness :
    (⟨200, "ok"⟩ : ResponseInfo).status_code = 200 ∧
    (upload_data cdnClient 7 ⟨some "Fh"⟩ ⟨200, "ok"⟩
        (.bytes [1, 2, 3]) "doc/x").size = some 3 ∧
    (upload_data cdnClient 7 ⟨some "Fh"⟩ ⟨200, "ok"⟩
        (.bytes [1, 2, 3]) "doc/x").key = some "doc/x" := by
  have h := c8_upload_data_success cdnClient 7 ⟨some "Fh"⟩ ⟨200, "ok"⟩
    (.bytes [1, 2, 3]) "doc/x" rfl
  exact ⟨rfl, h.1.trans rfl, h.2.1⟩

/-- C9: on a successful page, `list_files` sets `total` to the length of
that single page (`len(files)`, equal to the number of transport items),
whatever the pagination state `eof` says — not to a cross-page object
count. -/
theorem c9_list_total_is_page_length (c : QiniuOSSClient) (ret : ListRet)
    (eof : Bool) (info : ResponseInfo) (h : info.status_code = 200) :
    (list_files c ret eof info).total = some ret.items.length ∧
    (∀ fl, (list_files c ret eof info).files = some fl →
      (list_files c ret eof info).total = some fl.length) := by
  constructor
  · simp [list_files, h]
  · intro fl hfl
    simp [list_files, h] at hfl ⊢
    rw [← hfl]
    simp

/-- C9 witness: a two-item page that is not the last page
(`eof = false`) still reports `total = 2`. -/
theorem c9_list_total_is_page_length_witness :
    (⟨200, ""⟩ : ResponseInfo).status_code = 200 ∧
    (list_files cdnClient
        ⟨[⟨"docs/a", 1, "h1", 10, some "text/plain"⟩,
          ⟨"docs/b", 2, "h2", 11, none⟩], some "mk"⟩
        false ⟨200, ""⟩).total = some 2 := by
  have h := c9_list_total_is_page_length cdnClient
    ⟨[⟨"docs/a", 1, "h1", 10, some "text/plain"⟩,
      ⟨"docs/b", 2, "h2", 11, none⟩], some "mk"⟩
    false ⟨200, ""⟩ rfl
  exact ⟨rfl, h.1.trans rfl⟩

/-- C10: `upload_data` accepts a `str` input, which is UTF-8 encoded
before transmission; on success the `size` field is the UTF-8 byte length
of the string, which differs from the character count for non-ASCII input
(the four-character string below encodes to five bytes). -/
theorem c10_upload_data_str_utf8 (c : QiniuOSSClient) (now : Nat)
    (pret : PutRet) (info : ResponseInfo) (s : String) (rk : String)
    (h : info.status_code = 200) :
    dataBytes (.str s) = utf8Encode s ∧
    (upload_data c now pret info (.str s) rk).size
      = some (utf8Encode s).length ∧
    (utf8Encode "café").length = 5 ∧
    ("café" : String).length = 4 := by
  refine ⟨rfl, ?_, by decide, by decide⟩
  simp [upload_data, h, dataBytes]

/-- C10 witness: uploading a four-character non-ASCII string with a 200
response reports five bytes, not four characters. -/
theorem c10_upload_data_str_utf8_witness :
    (⟨200, ""⟩ : ResponseInfo).status_code = 200 ∧
    (upload_data cdnClient 0 ⟨none⟩ ⟨200, ""⟩ (.str "café") "k").size
      = some 5 ∧
    (utf8Encode "café").length ≠ ("café" : String).length := by
  have h := c10_upload_data_str_utf8 cdnClient 0 ⟨none⟩ ⟨200, ""⟩ "café" "k"
    rfl
  refine ⟨rfl, h.2.1.trans rfl, ?_⟩
  rw [h.2.2.1, h.2.2.2]
  decide

end QiniuClient
